import Mathlib

/-!
Shallow embedding of the `detectDevice` repository (three Python scripts:
`src/scraper.py`, `src/reformater.py`, `src/playground/reformater.py`).

JSON-like values are modelled by `Value`; numbers are exact rationals (every
numeric literal appearing in the scripts is a finite decimal, and the scripts
perform no floating-point arithmetic, only parsing and comparison).  Python
dicts are modelled as insertion-ordered association lists with unique keys
(`PyDict`); `dictSet` overwrites the first occurrence in place or appends,
matching CPython dict assignment, and `dictErase` models `dict.pop`.
-/

namespace DetectDevice

/-- A JSON/YAML-style value as handled by the scripts: null, booleans,
numbers (exact rationals) and strings. -/
inductive Value : Type where
  | vNull : Value
  | vBool : Bool → Value
  | vNum : ℚ → Value
  | vStr : String → Value
deriving DecidableEq

/-- Python truthiness of a value, as used by `if refresh_rate:` in
`update_values` (src/playground/reformater.py line 36). -/
def Value.truthy : Value → Bool
  | .vNull => false
  | .vBool b => b
  | .vNum q => decide (q ≠ 0)
  | .vStr s => decide (s ≠ "")

/-- A Python dict: insertion-ordered association list keyed by strings. -/
abbrev PyDict (α : Type) : Type := List (String × α)

/-- Dict lookup `d[k]` / the success case of `d.get(k)`. -/
def dictGet {α : Type} : PyDict α → String → Option α
  | [], _ => none
  | (k', v') :: rest, k => if k' = k then some v' else dictGet rest k

/-- Dict assignment `d[k] = v`: overwrite the first occurrence of `k` in
place (CPython keeps insertion order on overwrite), append if absent. -/
def dictSet {α : Type} : PyDict α → String → α → PyDict α
  | [], k, v => [(k, v)]
  | (k', v') :: rest, k, v =>
      if k' = k then (k, v) :: rest else (k', v') :: dictSet rest k v

/-- Key-removal part of `d.pop(k)`: drop the first occurrence of `k`. -/
def dictErase {α : Type} : PyDict α → String → PyDict α
  | [], _ => []
  | (k', v') :: rest, k => if k' = k then rest else (k', v') :: dictErase rest k

/-- Membership test, Python `k in d`. -/
def dictHasKey {α : Type} : PyDict α → String → Bool
  | [], _ => false
  | (k', _) :: rest, k => if k' = k then true else dictHasKey rest k

/-- A device record: a dict from field names to values. -/
abbrev Record : Type := PyDict Value

/-- Python `device.get(k)`: the value if present, else `None` (null). -/
def pyGetD (d : Record) (k : String) : Value :=
  (dictGet d k).getD .vNull

/-- The function `update_values` (src/playground/reformater.py lines 28-40): read the
`pro-motion` flag with `.get`, set `refresh_rate` to `120.0` when it is
truthy and to `60.0` otherwise.  The flag key is not removed. -/
def update_values (device : Record) : Record :=
  let refresh_rate := pyGetD device "pro-motion"
  if refresh_rate.truthy then dictSet device "refresh_rate" (.vNum 120)
  else dictSet device "refresh_rate" (.vNum 60)

/-- The function `update_keys` (src/playground/reformater.py lines 21-26):
`device['refresh_rate'] = device.pop('pro-motion')`.  `dict.pop` without a
default raises `KeyError` when the key is absent, modelled by `none`. -/
def update_keys (device : Record) : Option Record :=
  match dictGet device "pro-motion" with
  | none => none
  | some v => some (dictSet (dictErase device "pro-motion") "refresh_rate" v)

/-- Numeric value of a digit string, most significant digit first. -/
def digitsToNat (cs : List Char) : Nat :=
  cs.foldl (fun a c => a * 10 + (c.toNat - 48)) 0

/-- Gregorian leap-year rule, as applied by Python's `datetime`. -/
def isLeap (y : Nat) : Bool :=
  (y % 4 == 0 && y % 100 != 0) || y % 400 == 0

/-- Number of days in a month, as validated by `datetime`. -/
def daysInMonth (y m : Nat) : Nat :=
  if m = 2 then (if isLeap y then 29 else 28)
  else if m = 4 ∨ m = 6 ∨ m = 9 ∨ m = 11 then 30
  else 31

/-- Split a character list at every occurrence of a separator, like
Python's `str.split(sep)` (an empty input gives one empty group). -/
def splitOnChar (sep : Char) : List Char → List (List Char)
  | [] => [[]]
  | c :: rest =>
      if c = sep then [] :: splitOnChar sep rest
      else
        match splitOnChar sep rest with
        | [] => [[c]]
        | g :: gs => (c :: g) :: gs

/-- Python `datetime.strptime(s, '%Y-%m-%d')` (src/playground/reformater.py
line 11): a four-digit year, one- or two-digit month and day separated by
hyphens, with the month in 1..12 and the day valid for the month; any other
string raises `ValueError`, modelled by `none`. -/
def strptimeYMD (s : String) : Option (Nat × Nat × Nat) :=
  match splitOnChar '-' s.data with
  | [ys, ms, ds] =>
      if ys.length = 4 ∧ ys.all Char.isDigit = true ∧
         1 ≤ ms.length ∧ ms.length ≤ 2 ∧ ms.all Char.isDigit = true ∧
         1 ≤ ds.length ∧ ds.length ≤ 2 ∧ ds.all Char.isDigit = true then
        let y := digitsToNat ys
        let m := digitsToNat ms
        let d := digitsToNat ds
        if 1 ≤ m ∧ m ≤ 12 ∧ 1 ≤ d ∧ d ≤ daysInMonth y m then some (y, m, d)
        else none
      else none
  | _ => none

/-- The function `add_color_gamut` (src/playground/reformater.py lines 4-18): parse
`release_date` with `strptime`; year before 2016 gives `"sRGB"`, 2016 and
later gives `"P3"`.  A missing or non-string `release_date`, or an
unparsable date, raises (`TypeError`/`ValueError`), modelled by `none`. -/
def add_color_gamut (device : Record) : Option Record :=
  match pyGetD device "release_date" with
  | .vStr s =>
      match strptimeYMD s with
      | none => none
      | some (y, _, _) =>
          if y < 2016 then some (dictSet device "color_gamut" (.vStr "sRGB"))
          else some (dictSet device "color_gamut" (.vStr "P3"))
  | _ => none

/-- The function `format_device_data` (src/reformater.py lines 3-28): build a fresh
record with the fixed target keys, reading each mapped source label with
`.get` (null when absent) and forcing `unique` to `false`. -/
def format_device_data (device : Record) : Record :=
  [("aspect_ratio", pyGetD device "Aspect Ratio"),
   ("gpu", pyGetD device "GPU"),
   ("logical_height", pyGetD device "Logical Height"),
   ("logical_width", pyGetD device "Logical Width"),
   ("physical_height", pyGetD device "Physical Height"),
   ("physical_width", pyGetD device "Physical Width"),
   ("ppi", pyGetD device "PPI"),
   ("pro-motion", pyGetD device "ProMotion support"),
   ("release_date", pyGetD device "Release Date"),
   ("scale_factor", pyGetD device "Scale Factor"),
   ("screen_diagonal", pyGetD device "Screen Diagonal"),
   ("unique", Value.vBool false),
   ("device", pyGetD device "Device Name")]

/-- The fixed key set of a record produced by `format_device_data`. -/
def targetKeys : List String :=
  ["aspect_ratio", "gpu", "logical_height", "logical_width",
   "physical_height", "physical_width", "ppi", "pro-motion",
   "release_date", "scale_factor", "screen_diagonal", "unique", "device"]

/-- The fixed target-key/source-label mapping of `format_device_data`
(every target except the forced `unique`). -/
def keyMap : List (String × String) :=
  [("aspect_ratio", "Aspect Ratio"), ("gpu", "GPU"),
   ("logical_height", "Logical Height"), ("logical_width", "Logical Width"),
   ("physical_height", "Physical Height"), ("physical_width", "Physical Width"),
   ("ppi", "PPI"), ("pro-motion", "ProMotion support"),
   ("release_date", "Release Date"), ("scale_factor", "Scale Factor"),
   ("screen_diagonal", "Screen Diagonal"), ("device", "Device Name")]

/-- Python `str.strip()`: drop whitespace from both ends. -/
def pyStrip (s : String) : String :=
  ⟨((s.data.dropWhile Char.isWhitespace).reverse.dropWhile Char.isWhitespace).reverse⟩

/-- The first (leftmost) match of the regex `\d+(\.\d+)?` in a character
list, as a rational: a maximal digit run, optionally followed by a dot and
a further maximal digit run. -/
def findNumber : List Char → Option ℚ
  | [] => none
  | c :: rest =>
      if c.isDigit then
        match (c :: rest).dropWhile Char.isDigit with
        | '.' :: r3 =>
            if (r3.takeWhile Char.isDigit).length = 0 then
              some ((digitsToNat ((c :: rest).takeWhile Char.isDigit) : ℚ))
            else
              some ((digitsToNat ((c :: rest).takeWhile Char.isDigit) : ℚ) +
                (digitsToNat (r3.takeWhile Char.isDigit) : ℚ) /
                  (10 : ℚ) ^ (r3.takeWhile Char.isDigit).length)
        | _ => some ((digitsToNat ((c :: rest).takeWhile Char.isDigit) : ℚ))
      else findNumber rest

/-- The function `extract_number` (src/scraper.py lines 10-12):
`re.search(r"\d+(\.\d+)?", text)` converted with `float`, `None` when the
pattern does not occur. -/
def extract_number (s : String) : Option ℚ :=
  findNumber s.data

/-- A numeric cell value as stored by the scraper: the extracted float, or
Python `None` (null) when extraction failed. -/
def numOpt : Option ℚ → Value
  | some q => .vNum q
  | none => .vNull

/-- The record built from one table row by `scrape_ios_devices`
(src/scraper.py lines 40-57): device name from cell 0, nine positional
fields from cells 1-9, and the constant defaults `gpu = "unknown"`,
`pro-motion = false`, `unique = false`.  Cells are `.text.strip()`-ed; a
row with fewer than ten cells makes `columns[9]` raise `IndexError`,
modelled by `none`. -/
def rowRecord (columns : List String) : Option (String × Record) :=
  match columns with
  | c0 :: c1 :: c2 :: c3 :: c4 :: c5 :: c6 :: c7 :: c8 :: c9 :: _ =>
      some (pyStrip c0,
        [("logical_width", numOpt (extract_number (pyStrip c1))),
         ("logical_height", numOpt (extract_number (pyStrip c2))),
         ("physical_width", numOpt (extract_number (pyStrip c3))),
         ("physical_height", numOpt (extract_number (pyStrip c4))),
         ("ppi", numOpt (extract_number (pyStrip c5))),
         ("scale_factor", numOpt (extract_number (pyStrip c6))),
         ("screen_diagonal", numOpt (extract_number (pyStrip c7))),
         ("aspect_ratio", .vStr (pyStrip c8)),
         ("release_date", .vStr (pyStrip c9)),
         ("gpu", .vStr "unknown"),
         ("pro-motion", .vBool false),
         ("unique", .vBool false)])
  | _ => none

/-- One iteration of the row loop (src/scraper.py lines 35-57): skip the
row when it has no cells or fewer cells than there are headers, otherwise
store its record under the device name (overwriting a duplicate name). -/
def rowStep (numHeaders : Nat) (devices : PyDict Record) (columns : List String) :
    Except String (PyDict Record) :=
  if columns.length = 0 ∨ columns.length < numHeaders then .ok devices
  else
    match rowRecord columns with
    | some (name, rec) => .ok (dictSet devices name rec)
    | none => .error "IndexError: list index out of range"

/-- The whole row loop: fold `rowStep` over the rows, propagating an
uncaught `IndexError`. -/
def processRows (numHeaders : Nat) : List (List String) → PyDict Record →
    Except String (PyDict Record)
  | [], devices => .ok devices
  | row :: rest, devices =>
      match rowStep numHeaders devices row with
      | .ok devices2 => processRows numHeaders rest devices2
      | .error e => .error e

/-- The parsed markup as far as `scrape_ios_devices` looks at it: the texts
of the `th` header cells, and for every `tr` element (header row included)
the texts of its `td` cells. -/
structure Table where
  headers : List String
  rows : List (List String)

/-- The observable outcome of one `__main__` run of src/scraper.py: the
record set written to `ios_devices.yaml` (if any), the console messages,
and how many HTTP GETs were issued. -/
structure RunOutcome where
  written : Option (PyDict Record)
  printed : List String
  fetches : Nat
deriving DecidableEq

/-- Diagnostic of src/scraper.py line 18. -/
def statusFailMsg : String := "Failed to retrieve the webpage"

/-- Diagnostic of src/scraper.py line 26. -/
def noTableMsg : String := "Could not find the device table on the webpage."

/-- Diagnostic of src/scraper.py line 75. -/
def scrapeFailMsg : String := "❌ Failed to scrape data"

/-- One run of src/scraper.py as `__main__` (lines 15-27 and 69-75),
parameterised by the HTTP status code and the table found (or not) in the
markup.  A non-200 status or a missing table makes `scrape_ios_devices`
print a diagnostic and return `None`, so `__main__` prints the failure
message and writes nothing; an `IndexError` in the row loop propagates and
aborts with a traceback; an empty device dict is falsy, so it is also
reported as failure; otherwise the dict is saved.  Exactly one GET is
issued in every case — there is no retry. -/
def mainRun (status : Nat) (table : Option Table) : RunOutcome :=
  if status ≠ 200 then
    { written := none, printed := [statusFailMsg, scrapeFailMsg], fetches := 1 }
  else
    match table with
    | none =>
        { written := none, printed := [noTableMsg, scrapeFailMsg], fetches := 1 }
    | some t =>
        match processRows t.headers.length (t.rows.drop 1) [] with
        | .error e => { written := none, printed := [e], fetches := 1 }
        | .ok d =>
            if d.isEmpty then
              { written := none, printed := [scrapeFailMsg], fetches := 1 }
            else
              { written := some d,
                printed := ["✅ Successfully saved devices to ios_devices.yaml"],
                fetches := 1 }

/-- Modelled from the spec: the diagonal-string coercion pass of the Field
Normalizer (spec section 4.3) is not among the repository's source files
(only the extraction helper `extract_number` is, in src/scraper.py).  Per
the spec's words, the pass extracts the numeric substring of a textual
`screen_diagonal` and replaces the field with the float on success; when no
numeric substring exists it logs one warning and leaves the field
unmodified (non-fatal).  Returns the record and the number of warnings
emitted. -/
def coerceDiagonal (device : Record) : Record × Nat :=
  match dictGet device "screen_diagonal" with
  | some (.vStr s) =>
      match extract_number s with
      | some q => (dictSet device "screen_diagonal" (.vNum q), 0)
      | none => (device, 1)
  | _ => (device, 0)

/-! ### Generic dict lemmas -/

theorem dictGet_dictSet_self {α : Type} (d : PyDict α) (k : String) (v : α) :
    dictGet (dictSet d k v) k = some v := by
  induction d with
  | nil => simp [dictSet, dictGet]
  | cons hd tl ih =>
      obtain ⟨k', v'⟩ := hd
      by_cases h : k' = k
      · simp [dictSet, dictGet, h]
      · simp [dictSet, dictGet, h, ih]

theorem dictGet_dictSet_ne {α : Type} (d : PyDict α) (k k' : String) (v : α)
    (h : k' ≠ k) : dictGet (dictSet d k v) k' = dictGet d k' := by
  have h' : ¬ k = k' := fun hh => h hh.symm
  induction d with
  | nil => simp [dictSet, dictGet, h']
  | cons hd tl ih =>
      obtain ⟨k₀, v₀⟩ := hd
      by_cases h₀ : k₀ = k
      · subst h₀
        simp [dictSet, dictGet, h']
      · simp [dictSet, dictGet, h₀, ih]

theorem dictSet_dictSet_same {α : Type} (d : PyDict α) (k : String) (v w : α) :
    dictSet (dictSet d k v) k w = dictSet d k w := by
  induction d with
  | nil => simp [dictSet]
  | cons hd tl ih =>
      obtain ⟨k₀, v₀⟩ := hd
      by_cases h₀ : k₀ = k
      · simp [dictSet, h₀]
      · simp [dictSet, h₀, ih]

theorem dictHasKey_dictSet {α : Type} (d : PyDict α) (k k' : String) (v : α) :
    dictHasKey (dictSet d k v) k' = (decide (k' = k) || dictHasKey d k') := by
  induction d with
  | nil =>
      by_cases h : k = k'
      · simp [dictSet, dictHasKey, h]
      · have h' : ¬ k' = k := fun hh => h hh.symm
        simp [dictSet, dictHasKey, h, h']
  | cons hd tl ih =>
      obtain ⟨k₀, v₀⟩ := hd
      by_cases h₀ : k₀ = k
      · subst h₀
        by_cases h : k₀ = k'
        · simp [dictSet, dictHasKey, h]
        · have h' : ¬ k' = k₀ := fun hh => h hh.symm
          simp [dictSet, dictHasKey, h, h']
      · by_cases h : k₀ = k'
        · have h'' : ¬ k' = k := fun hh => h₀ (h.trans hh)
          simp [dictSet, dictHasKey, h₀, h, h'']
        · simp [dictSet, dictHasKey, h₀, h, ih]

theorem dictGet_mem {α : Type} (d : PyDict α) (k : String) (v : α)
    (h : dictGet d k = some v) : (k, v) ∈ d := by
  induction d with
  | nil => simp [dictGet] at h
  | cons hd tl ih =>
      obtain ⟨k₀, v₀⟩ := hd
      by_cases h₀ : k₀ = k
      · subst h₀
        simp [dictGet] at h
        simp [h]
      · simp [dictGet, h₀] at h
        exact List.mem_cons_of_mem _ (ih h)

theorem dictGet_eq_none_of_not_mem {α : Type} (d : PyDict α) (k : String)
    (h : k ∉ d.map Prod.fst) : dictGet d k = none := by
  induction d with
  | nil => simp [dictGet]
  | cons hd tl ih =>
      obtain ⟨k₀, v₀⟩ := hd
      rw [List.map_cons, List.mem_cons] at h
      push_neg at h
      have h₀ : ¬ k₀ = k := fun hh => h.1 hh.symm
      simp [dictGet, h₀, ih h.2]

theorem dictHasKey_iff_mem {α : Type} (d : PyDict α) (k : String) :
    dictHasKey d k = true ↔ k ∈ d.map Prod.fst := by
  induction d with
  | nil => simp [dictHasKey]
  | cons hd tl ih =>
      obtain ⟨k₀, v₀⟩ := hd
      by_cases h₀ : k₀ = k
      · simp [dictHasKey, h₀]
      · have h₀' : ¬ k = k₀ := fun hh => h₀ hh.symm
        simp [dictHasKey, h₀, h₀', ih]

theorem map_fst_dictErase {α : Type} (d : PyDict α) (k : String) :
    (dictErase d k).map Prod.fst = (d.map Prod.fst).erase k := by
  induction d with
  | nil => simp [dictErase]
  | cons hd tl ih =>
      obtain ⟨k₀, v₀⟩ := hd
      by_cases h₀ : k₀ = k
      · simp [dictErase, h₀, List.erase_cons_head]
      · rw [List.map_cons, List.erase_cons_tail]
        · simp [dictErase, h₀, ih]
        · simp [h₀]

theorem dictHasKey_dictErase_of_nodup {α : Type} (d : PyDict α) (k : String)
    (h : (d.map Prod.fst).Nodup) : dictHasKey (dictErase d k) k = false := by
  rw [Bool.eq_false_iff]
  intro hk
  rw [dictHasKey_iff_mem, map_fst_dictErase] at hk
  exact h.not_mem_erase hk

theorem update_values_eq (d : Record) :
    update_values d = dictSet d "refresh_rate"
      (if (pyGetD d "pro-motion").truthy then Value.vNum 120 else Value.vNum 60) := by
  by_cases h : (pyGetD d "pro-motion").truthy = true
  · simp [update_values, h]
  · rw [Bool.not_eq_true] at h
    simp [update_values, h]

/-! ### Claims about src/playground/reformater.py -/

/-- C1, counterexample.  The claim states that after the refresh-rate
derivation the boolean key `pro-motion` no longer exists in the record.  On
the record `{"pro-motion": true}` the derivation `update_values` produces the
correct `refresh_rate = 120.0` but the `pro-motion` key is still present:
only the separate rename `update_keys` removes it. -/
theorem claim_C1_counterexample :
    dictHasKey (update_values [("pro-motion", Value.vBool true)]) "pro-motion" = true ∧
    dictGet (update_values [("pro-motion", Value.vBool true)]) "refresh_rate" =
      some (Value.vNum 120) := by
  decide

/-- C1, amended.  The refresh-rate derivation `update_values` maps a
truthy `pro-motion` flag to `refresh_rate = 120.0` and a falsy or absent flag
to `60.0`, but it does not remove the `pro-motion` key (its presence is
unchanged).  The key is removed only by the separate rename `update_keys`,
which copies the raw flag value into `refresh_rate` instead of deriving
120.0/60.0. -/
theorem claim_C1_amended (d : Record) :
    ((pyGetD d "pro-motion").truthy = true →
      dictGet (update_values d) "refresh_rate" = some (Value.vNum 120)) ∧
    ((pyGetD d "pro-motion").truthy = false →
      dictGet (update_values d) "refresh_rate" = some (Value.vNum 60)) ∧
    dictHasKey (update_values d) "pro-motion" = dictHasKey d "pro-motion" ∧
    (∀ v, dictGet d "pro-motion" = some v → (d.map Prod.fst).Nodup →
      ∃ r, update_keys d = some r ∧ dictHasKey r "pro-motion" = false ∧
        dictGet r "refresh_rate" = some v) := by
  refine ⟨fun h => ?_, fun h => ?_, ?_, fun v hv hnd => ?_⟩
  · simp [update_values, h, dictGet_dictSet_self]
  · simp [update_values, h, dictGet_dictSet_self]
  · rw [update_values_eq, dictHasKey_dictSet]
    simp
  · refine ⟨dictSet (dictErase d "pro-motion") "refresh_rate" v, ?_, ?_, ?_⟩
    · simp [update_keys, hv]
    · rw [dictHasKey_dictSet]
      simp [dictHasKey_dictErase_of_nodup _ _ hnd]
    · exact dictGet_dictSet_self _ _ _

/-- C1, witness for the amended theorem at the record
`{"pro-motion": true, "gpu": "unknown"}`. -/
theorem claim_C1_amended_witness :
    dictGet (update_values [("pro-motion", Value.vBool true), ("gpu", Value.vStr "unknown")])
      "refresh_rate" = some (Value.vNum 120) ∧
    (∃ r, update_keys [("pro-motion", Value.vBool true), ("gpu", Value.vStr "unknown")] =
        some r ∧ dictHasKey r "pro-motion" = false ∧
        dictGet r "refresh_rate" = some (Value.vBool true)) :=
  ⟨(claim_C1_amended _).1 (by decide),
   (claim_C1_amended _).2.2.2 (Value.vBool true) (by decide) (by decide)⟩

/-- C10.  The function `update_values` is idempotent and frame-preserving: applying it
twice equals applying it once, and for every key other than `refresh_rate`
(including `pro-motion` itself) both the presence and the value of the key
are unchanged. -/
theorem claim_C10_update_values_idempotent_frame (d : Record) :
    update_values (update_values d) = update_values d ∧
    (∀ k, k ≠ "refresh_rate" → dictGet (update_values d) k = dictGet d k) ∧
    (∀ k, k ≠ "refresh_rate" → dictHasKey (update_values d) k = dictHasKey d k) := by
  have hpm : pyGetD (update_values d) "pro-motion" = pyGetD d "pro-motion" := by
    rw [update_values_eq]
    unfold pyGetD
    rw [dictGet_dictSet_ne _ _ _ _ (by decide)]
  refine ⟨?_, fun k hk => ?_, fun k hk => ?_⟩
  · rw [update_values_eq (update_values d), hpm, update_values_eq d,
      dictSet_dictSet_same]
  · rw [update_values_eq, dictGet_dictSet_ne _ _ _ _ hk]
  · rw [update_values_eq, dictHasKey_dictSet]
    simp [hk]

/-- C10, witness at the record `{"pro-motion": false, "gpu": "unknown"}`
and the key `gpu`. -/
theorem claim_C10_witness :
    update_values (update_values [("pro-motion", Value.vBool false), ("gpu", Value.vStr "unknown")]) =
      update_values [("pro-motion", Value.vBool false), ("gpu", Value.vStr "unknown")] ∧
    dictGet (update_values [("pro-motion", Value.vBool false), ("gpu", Value.vStr "unknown")]) "gpu" =
      dictGet [("pro-motion", Value.vBool false), ("gpu", Value.vStr "unknown")] "gpu" :=
  ⟨(claim_C10_update_values_idempotent_frame _).1,
   (claim_C10_update_values_idempotent_frame _).2.1 "gpu" (by decide)⟩

/-- C2.  For every device record whose `release_date` is a string that
parses in `YYYY-MM-DD` form, `add_color_gamut` sets `color_gamut` to
`"sRGB"` when the release year is strictly before 2016 and to `"P3"` when
the year is 2016 or later. -/
theorem claim_C2_gamut (d : Record) (s : String) (y m dd : Nat)
    (hs : pyGetD d "release_date" = Value.vStr s)
    (hp : strptimeYMD s = some (y, m, dd)) :
    add_color_gamut d = some (dictSet d "color_gamut"
      (Value.vStr (if y < 2016 then "sRGB" else "P3"))) := by
  by_cases hy : y < 2016 <;> simp [add_color_gamut, hs, hp, hy]

/-- C2, witness at the three dates named by the claim:
`"2015-09-01" → "sRGB"`, `"2016-03-21" → "P3"`, boundary
`"2016-01-01" → "P3"`. -/
theorem claim_C2_gamut_witness :
    add_color_gamut [("release_date", Value.vStr "2015-09-01")] =
      some [("release_date", Value.vStr "2015-09-01"),
            ("color_gamut", Value.vStr "sRGB")] ∧
    add_color_gamut [("release_date", Value.vStr "2016-03-21")] =
      some [("release_date", Value.vStr "2016-03-21"),
            ("color_gamut", Value.vStr "P3")] ∧
    add_color_gamut [("release_date", Value.vStr "2016-01-01")] =
      some [("release_date", Value.vStr "2016-01-01"),
            ("color_gamut", Value.vStr "P3")] :=
  ⟨(claim_C2_gamut [("release_date", Value.vStr "2015-09-01")]
      "2015-09-01" 2015 9 1 rfl (by decide)).trans (by decide),
   (claim_C2_gamut [("release_date", Value.vStr "2016-03-21")]
      "2016-03-21" 2016 3 21 rfl (by decide)).trans (by decide),
   (claim_C2_gamut [("release_date", Value.vStr "2016-01-01")]
      "2016-01-01" 2016 1 1 rfl (by decide)).trans (by decide)⟩

/-! ### Claims about src/reformater.py -/

/-- C3.  The remap `format_device_data` is a pure projection: the output has
exactly the fixed target keys (so any unmapped extra input key is dropped),
each mapped target holds the input's value at the source label with an
explicit null when the label is absent, and `unique` is always `false`
regardless of the input. -/
theorem claim_C3_remap (d : Record) :
    (format_device_data d).map Prod.fst = targetKeys ∧
    dictGet (format_device_data d) "unique" = some (Value.vBool false) ∧
    (∀ tgt src, (tgt, src) ∈ keyMap →
      dictGet (format_device_data d) tgt = some (pyGetD d src)) ∧
    (∀ k, k ∉ targetKeys → dictGet (format_device_data d) k = none) := by
  have hkeys : (format_device_data d).map Prod.fst = targetKeys := rfl
  refine ⟨hkeys, rfl, fun tgt src hmem => ?_, fun k hk => ?_⟩
  · fin_cases hmem <;> rfl
  · rw [← hkeys] at hk
    exact dictGet_eq_none_of_not_mem _ _ hk

/-- C3, witness at the record
`{"Device Name": "iPad", "Extra": "x"}`: the mapped-but-absent `GPU` label
yields an explicit null under `gpu`, and the unmapped `Extra` key is
dropped. -/
theorem claim_C3_remap_witness :
    dictGet (format_device_data
        [("Device Name", Value.vStr "iPad"), ("Extra", Value.vStr "x")]) "gpu" =
      some (pyGetD [("Device Name", Value.vStr "iPad"), ("Extra", Value.vStr "x")] "GPU") ∧
    dictGet (format_device_data
        [("Device Name", Value.vStr "iPad"), ("Extra", Value.vStr "x")]) "Extra" = none :=
  ⟨(claim_C3_remap _).2.2.1 "gpu" "GPU" (by decide),
   (claim_C3_remap _).2.2.2 "Extra" (by decide)⟩

/-! ### Claims about src/scraper.py -/

theorem findNumber_nonneg (cs : List Char) (q : ℚ) (h : findNumber cs = some q) :
    0 ≤ q := by
  induction cs with
  | nil => simp [findNumber] at h
  | cons c rest ih =>
      rw [findNumber] at h
      by_cases hc : c.isDigit
      · rw [if_pos hc] at h
        split at h
        · split at h <;> (injection h with h; subst h; positivity)
        · injection h with h
          subst h
          positivity
      · rw [if_neg hc] at h
        exact ih h

theorem numOpt_extract_nonneg (s : String) (q : ℚ)
    (h : numOpt (extract_number s) = Value.vNum q) : 0 ≤ q := by
  rcases he : extract_number s with _ | q'
  · rw [he] at h
    simp [numOpt] at h
  · rw [he] at h
    simp only [numOpt, Value.vNum.injEq] at h
    subst h
    exact findNumber_nonneg _ _ he

theorem findNumber_none_of_no_digit (cs : List Char)
    (h : ∀ c ∈ cs, c.isDigit = false) : findNumber cs = none := by
  induction cs with
  | nil => simp [findNumber]
  | cons c rest ih =>
      rw [findNumber]
      rw [if_neg (by simp [h c (List.mem_cons_self c rest)])]
      exact ih fun x hx => h x (List.mem_cons_of_mem c hx)

/-- C4, counterexample.  The claim promises a record for every valid
device row with at least nine cells, but the scraper indexes `columns[9]`,
the tenth cell: a row with exactly nine cells (against a nine-label header,
so it passes the length filter) raises `IndexError` and produces no
record. -/
theorem claim_C4_counterexample :
    rowStep 9 []
      ["Apple Watch", "272", "340", "272", "340", "326", "2.0", "1.5", "5:4"] =
      Except.error "IndexError: list index out of range" := rfl

/-- C4, amended.  For every device row with at least ten cells (the
device-name cell plus the nine positional data cells) that passes the
header-length filter, the row loop stores, under the stripped first cell,
a record with exactly the nine positional fields populated together with
the constant defaults `gpu = "unknown"`, `pro-motion = false` and
`unique = false`. -/
theorem claim_C4_amended (numHeaders : Nat) (devices : PyDict Record)
    (c0 c1 c2 c3 c4 c5 c6 c7 c8 c9 : String) (rest : List String)
    (h : numHeaders ≤ (c0 :: c1 :: c2 :: c3 :: c4 :: c5 :: c6 :: c7 :: c8 :: c9 :: rest).length) :
    rowStep numHeaders devices
        (c0 :: c1 :: c2 :: c3 :: c4 :: c5 :: c6 :: c7 :: c8 :: c9 :: rest) =
      Except.ok (dictSet devices (pyStrip c0)
        [("logical_width", numOpt (extract_number (pyStrip c1))),
         ("logical_height", numOpt (extract_number (pyStrip c2))),
         ("physical_width", numOpt (extract_number (pyStrip c3))),
         ("physical_height", numOpt (extract_number (pyStrip c4))),
         ("ppi", numOpt (extract_number (pyStrip c5))),
         ("scale_factor", numOpt (extract_number (pyStrip c6))),
         ("screen_diagonal", numOpt (extract_number (pyStrip c7))),
         ("aspect_ratio", .vStr (pyStrip c8)),
         ("release_date", .vStr (pyStrip c9)),
         ("gpu", .vStr "unknown"),
         ("pro-motion", .vBool false),
         ("unique", .vBool false)]) := by
  unfold rowStep
  rw [if_neg (not_or.mpr ⟨by simp, Nat.not_lt.mpr h⟩)]
  rfl

/-- C4, witness: a concrete ten-cell row against a ten-label header. -/
theorem claim_C4_amended_witness :
    rowStep 10 []
        ["iPad Pro", "1024", "1366", "2048", "2732", "264", "2", "13",
         "4:3", "2015-11-11"] =
      Except.ok [("iPad Pro",
        [("logical_width", Value.vNum 1024),
         ("logical_height", Value.vNum 1366),
         ("physical_width", Value.vNum 2048),
         ("physical_height", Value.vNum 2732),
         ("ppi", Value.vNum 264),
         ("scale_factor", Value.vNum 2),
         ("screen_diagonal", Value.vNum 13),
         ("aspect_ratio", Value.vStr "4:3"),
         ("release_date", Value.vStr "2015-11-11"),
         ("gpu", Value.vStr "unknown"),
         ("pro-motion", Value.vBool false),
         ("unique", Value.vBool false)])] :=
  (claim_C4_amended 10 [] "iPad Pro" "1024" "1366" "2048" "2732" "264" "2"
      "13" "4:3" "2015-11-11" [] (by decide)).trans rfl

/-- C5.  A row with fewer cells than there are header labels is skipped
silently: the accumulated record set is returned unchanged (so its size
does not count the row) and no error is raised. -/
theorem claim_C5_short_row_skipped (numHeaders : Nat) (devices : PyDict Record)
    (columns : List String) (rows : List (List String))
    (h : columns.length < numHeaders) :
    rowStep numHeaders devices columns = Except.ok devices ∧
    processRows numHeaders (columns :: rows) devices =
      processRows numHeaders rows devices := by
  have h1 : rowStep numHeaders devices columns = Except.ok devices := by
    unfold rowStep
    rw [if_pos (Or.inr h)]
  refine ⟨h1, ?_⟩
  simp only [processRows, h1]

/-- C5, witness: a one-cell row against a ten-label header. -/
theorem claim_C5_witness :
    rowStep 10 [] ["stub"] = Except.ok [] ∧
    processRows 10 [["stub"]] [] = processRows 10 [] [] :=
  claim_C5_short_row_skipped 10 [] ["stub"] [] (by decide)

/-- C6.  The extraction `extract_number` maps `'16.2"'` to `16.2` and `'8.3in'` to
`8.3`; on a string containing no digits the diagonal coercion fails
non-fatally: the record is returned unmodified and exactly one warning is
emitted.  (The warning-emitting coercion pass is modelled from the spec,
see `coerceDiagonal`; the extraction itself is src/scraper.py lines
10-12.) -/
theorem claim_C6_diagonal_coercion :
    extract_number "16.2\"" = some ((162 : ℚ)/10) ∧
    extract_number "8.3in" = some ((83 : ℚ)/10) ∧
    ∀ (d : Record) (s : String), dictGet d "screen_diagonal" = some (Value.vStr s) →
      (∀ c ∈ s.data, c.isDigit = false) → coerceDiagonal d = (d, 1) := by
  refine ⟨?_, ?_, fun d s hget hnod => ?_⟩
  · rw [show extract_number "16.2\"" = some ((16 : ℚ) + (2 : ℚ)/(10 : ℚ)^1) from rfl]
    norm_num
  · rw [show extract_number "8.3in" = some ((8 : ℚ) + (3 : ℚ)/(10 : ℚ)^1) from rfl]
    norm_num
  have hnone : extract_number s = none := findNumber_none_of_no_digit _ hnod
  simp [coerceDiagonal, hget, hnone]

/-- C6, witness: a diagonal cell reading `"unknown"` (no digits). -/
theorem claim_C6_witness :
    coerceDiagonal [("screen_diagonal", Value.vStr "unknown")] =
      ([("screen_diagonal", Value.vStr "unknown")], 1) :=
  claim_C6_diagonal_coercion.2.2 _ "unknown" rfl (by decide)

/-- C7.  On a non-success HTTP status, or when no table element is
found in the markup, the run aborts: a diagnostic is printed, no output
file is written, and exactly one GET was issued (no retry). -/
theorem claim_C7_abort (status : Nat) (table : Option Table)
    (h : status ≠ 200 ∨ table = none) :
    (mainRun status table).written = none ∧
    (statusFailMsg ∈ (mainRun status table).printed ∨
      noTableMsg ∈ (mainRun status table).printed) ∧
    (mainRun status table).fetches = 1 := by
  rcases h with h | h
  · simp [mainRun, h]
  · subst h
    by_cases hs : status = 200
    · simp [mainRun, hs]
    · simp [mainRun, hs]

/-- C7, witness: a 404 status (with a well-formed empty table). -/
theorem claim_C7_witness :
    (mainRun 404 (some ⟨[], []⟩)).written = none ∧
    (statusFailMsg ∈ (mainRun 404 (some ⟨[], []⟩)).printed ∨
      noTableMsg ∈ (mainRun 404 (some ⟨[], []⟩)).printed) ∧
    (mainRun 404 (some ⟨[], []⟩)).fetches = 1 :=
  claim_C7_abort 404 (some ⟨[], []⟩) (Or.inl (by decide))

/-- C8.  Every numeric field of every record produced by the row loop
is non-negative when present: any key of such a record holding a number
holds a non-negative one, because `extract_number` parses an unsigned
decimal pattern. -/
theorem claim_C8_numeric_nonneg (columns : List String) (name : String)
    (rec : Record) (h : rowRecord columns = some (name, rec)) :
    ∀ (k : String) (q : ℚ), dictGet rec k = some (Value.vNum q) → 0 ≤ q := by
  intro k q hkq
  rcases columns with _ | ⟨c0, _ | ⟨c1, _ | ⟨c2, _ | ⟨c3, _ | ⟨c4, _ | ⟨c5,
    _ | ⟨c6, _ | ⟨c7, _ | ⟨c8, _ | ⟨c9, rest⟩⟩⟩⟩⟩⟩⟩⟩⟩⟩ <;>
    simp only [rowRecord, Option.some.injEq, Prod.mk.injEq, reduceCtorEq] at h
  obtain ⟨-, rfl⟩ := h
  have hmem := dictGet_mem _ _ _ hkq
  simp only [List.mem_cons, List.not_mem_nil, or_false] at hmem
  rcases hmem with h1 | h1 | h1 | h1 | h1 | h1 | h1 | h1 | h1 | h1 | h1 | h1
  · exact numOpt_extract_nonneg _ _ (congrArg Prod.snd h1).symm
  · exact numOpt_extract_nonneg _ _ (congrArg Prod.snd h1).symm
  · exact numOpt_extract_nonneg _ _ (congrArg Prod.snd h1).symm
  · exact numOpt_extract_nonneg _ _ (congrArg Prod.snd h1).symm
  · exact numOpt_extract_nonneg _ _ (congrArg Prod.snd h1).symm
  · exact numOpt_extract_nonneg _ _ (congrArg Prod.snd h1).symm
  · exact numOpt_extract_nonneg _ _ (congrArg Prod.snd h1).symm
  · simp at h1
  · simp at h1
  · simp at h1
  · simp at h1
  · simp at h1

/-- C8, witness: the `ppi` field of a concrete scraped row. -/
theorem claim_C8_witness :
    rowRecord ["iPhone", "320", "480", "320", "480", "163", "1", "4",
        "3:2", "2007-06-29"] =
      some ("iPhone",
        [("logical_width", Value.vNum 320),
         ("logical_height", Value.vNum 480),
         ("physical_width", Value.vNum 320),
         ("physical_height", Value.vNum 480),
         ("ppi", Value.vNum 163),
         ("scale_factor", Value.vNum 1),
         ("screen_diagonal", Value.vNum 4),
         ("aspect_ratio", Value.vStr "3:2"),
         ("release_date", Value.vStr "2007-06-29"),
         ("gpu", Value.vStr "unknown"),
         ("pro-motion", Value.vBool false),
         ("unique", Value.vBool false)]) ∧
    (0 : ℚ) ≤ 163 :=
  ⟨rfl,
   claim_C8_numeric_nonneg
     ["iPhone", "320", "480", "320", "480", "163", "1", "4", "3:2", "2007-06-29"]
     "iPhone"
     [("logical_width", Value.vNum 320),
      ("logical_height", Value.vNum 480),
      ("physical_width", Value.vNum 320),
      ("physical_height", Value.vNum 480),
      ("ppi", Value.vNum 163),
      ("scale_factor", Value.vNum 1),
      ("screen_diagonal", Value.vNum 4),
      ("aspect_ratio", Value.vStr "3:2"),
      ("release_date", Value.vStr "2007-06-29"),
      ("gpu", Value.vStr "unknown"),
      ("pro-motion", Value.vBool false),
      ("unique", Value.vBool false)]
     rfl "ppi" 163 rfl⟩

/-- C9, counterexample.  The claim says a textual `aspect_ratio` or
`release_date` containing the decorative label (`"Aspect Ratio:"`,
`"Release Date:"`) has the label removed.  The scraper only applies
`.strip()` to those cells (src/scraper.py lines 52-53), so on a row whose
cells carry the labels the stored values retain them. -/
theorem claim_C9_counterexample :
    (rowRecord ["iPad", "1024", "1366", "2048", "2732", "264", "2", "12.9",
        "Aspect Ratio: 4:3", "Release Date: 2015-11-11"]).map
        (fun p => (dictGet p.2 "aspect_ratio", dictGet p.2 "release_date")) =
      some (some (Value.vStr "Aspect Ratio: 4:3"),
            some (Value.vStr "Release Date: 2015-11-11")) ∧
    "Aspect Ratio: 4:3" ≠ "4:3" ∧ "Release Date: 2015-11-11" ≠ "2015-11-11" := by
  refine ⟨rfl, by decide, by decide⟩

/-- C9, amended.  For the `aspect_ratio` and `release_date` fields the
normalization is `.strip()` only: the stored value is the cell text with
surrounding whitespace trimmed, and decorative label text such as
`"Aspect Ratio:"` or `"Release Date:"` is not removed. -/
theorem claim_C9_amended (c0 c1 c2 c3 c4 c5 c6 c7 c8 c9 : String)
    (rest : List String) :
    (∃ rec, rowRecord (c0 :: c1 :: c2 :: c3 :: c4 :: c5 :: c6 :: c7 :: c8 :: c9 :: rest) =
        some (pyStrip c0, rec) ∧
      dictGet rec "aspect_ratio" = some (Value.vStr (pyStrip c8)) ∧
      dictGet rec "release_date" = some (Value.vStr (pyStrip c9))) ∧
    pyStrip "  Aspect Ratio: 4:3  " = "Aspect Ratio: 4:3" ∧
    pyStrip " Release Date: 2015-11-11 " = "Release Date: 2015-11-11" :=
  ⟨⟨_, rfl, rfl, rfl⟩, by decide, by decide⟩

end DetectDevice
